import Mathlib

/-!
Shallow embedding of the shipment record model of `src/models/Shipping.js`.

Modelling conventions:
* Dates are integer day indices (day 0 = 1970-01-01, a Thursday); the current
  clock reading is passed explicitly (`now`) to every operation that reads it.
  In the statistics model timestamps are in milliseconds, matching the
  millisecond arithmetic of `getShippingStats`.
* Persistence (`save`) validates the document (closed enumerations, required
  description strings) and runs the pre-save middleware; failure is the
  `ValidationError` outcome.
* The dirty-flag `statusModified` models `isModified` of the document
  change tracking for the `shippingStatus` path: an assignment marks
  the path modified exactly when the assigned value differs, and a successful
  save clears the flag.
-/

/-- The closed 12-value shipping status enumeration of the schema. -/
def shippingStatusEnum : List String :=
  ["Pending", "Processing", "Ready to Ship", "Shipped", "In Transit",
   "Out for Delivery", "Delivered", "Delivery Failed", "Returned", "Lost",
   "Damaged", "Cancelled"]

/-- The closed tracking-event status enumeration of `trackingEventSchema`. -/
def trackingEventStatusEnum : List String :=
  ["label_created", "picked_up", "in_transit", "out_for_delivery", "delivered",
   "delivery_attempted", "exception", "returned", "lost", "damaged"]

/-- The closed return-reason enumeration of the `return` sub-schema. -/
def returnReasonEnum : List String :=
  ["delivery_failed", "refused_by_recipient", "incorrect_address",
   "damaged_package", "customer_request", "other"]

/-- The closed source enumeration of `trackingEventSchema`. -/
def sourceEnum : List String := ["carrier", "api", "manual", "webhook"]

/-- Replaces each maximal run of whitespace by one underscore, as the
replacement of the whitespace-run regex by an underscore does. -/
def squashWhitespace : List Char → List Char
  | [] => []
  | c :: rest =>
    if c.isWhitespace then
      match rest with
      | [] => ['_']
      | d :: _ =>
        if d.isWhitespace then squashWhitespace rest
        else '_' :: squashWhitespace rest
    else c :: squashWhitespace rest

/-- Lower-casing of a string, character by character. -/
def lowerCase (s : String) : String :=
  String.mk (s.data.map Char.toLower)

/-- The event-status token `updateStatus` derives from a status value:
lower-cased, with whitespace runs replaced by underscores. -/
def statusToken (s : String) : String :=
  String.mk (squashWhitespace (lowerCase s).data)

/-- The fixed event-token to shipping-status mapping inside
`addTrackingEvent`. -/
def statusMapping (status : String) : Option String :=
  if status = "delivered" then some "Delivered"
  else if status = "out_for_delivery" then some "Out for Delivery"
  else if status = "in_transit" then some "In Transit"
  else if status = "picked_up" then some "Shipped"
  else if status = "exception" then some "Delivery Failed"
  else if status = "returned" then some "Returned"
  else if status = "lost" then some "Lost"
  else if status = "damaged" then some "Damaged"
  else none

/-- Optional location attached to a tracking event. -/
structure LocationInfo where
  city : Option String := none
  state : Option String := none
  country : Option String := none
  facility : Option String := none
deriving DecidableEq

/-- One tracking event of `trackingEventSchema`. -/
structure TrackingEvent where
  status : String
  description : String
  location : LocationInfo := {}
  timestamp : Int
  source : String := "api"
deriving DecidableEq

/-- The delivery-confirmation sub-record. -/
structure DeliveryInfo where
  receivedBy : String := ""
  deliveryLocation : String := ""
  signature : String := ""
  deliveryPhoto : String := ""
  deliveryNotes : String := ""
deriving DecidableEq

/-- The return sub-record (`return` in the schema; renamed because `return`
is a keyword here). -/
structure ReturnInfo where
  isReturned : Bool := false
  reason : Option String := none
  returnedAt : Option Int := none
  returnTrackingNumber : Option String := none
deriving DecidableEq

/-- The `deliveryTimeframe` sub-record (min/max business days). -/
structure Timeframe where
  min : Option Nat := none
  max : Option Nat := none
deriving DecidableEq

/-- The shipment document, restricted to the fields read or written by the
modelled operations. `statusModified` is the modified-paths tracker entry for
`shippingStatus`. -/
structure Shipment where
  carrier : String := "La Poste"
  trackingNumber : String := ""
  trackingUrl : String := ""
  shippingStatus : String := "Pending"
  saturdayDelivery : Bool := false
  shippedAt : Option Int := none
  estimatedDeliveryDate : Option Int := none
  actualDeliveryDate : Option Int := none
  deliveryTimeframe : Option Timeframe := none
  trackingEvents : List TrackingEvent := []
  lastTrackingUpdate : Option Int := none
  delivery : DeliveryInfo := {}
  returnInfo : ReturnInfo := {}
  statusModified : Bool := false
deriving DecidableEq

/-- Assignment to `shippingStatus`: the path is marked modified exactly when
the assigned value differs from the stored one. -/
def Shipment.setShippingStatus (s : Shipment) (v : String) : Shipment :=
  if v = s.shippingStatus then s
  else { s with shippingStatus := v, statusModified := true }

/-- Method `addTrackingEvent(status, description, location = {}, timestamp =
null)`: appends one event with source `manual` (timestamp defaulting to now),
updates `lastTrackingUpdate`, and overwrites the overall status when the
event token is a key of `statusMapping`. -/
def Shipment.addTrackingEvent (s : Shipment) (status description : String)
    (location : LocationInfo) (timestamp : Option Int) (now : Int) : Shipment :=
  let event : TrackingEvent :=
    { status := status, description := description, location := location,
      timestamp := timestamp.getD now, source := "manual" }
  let s1 := { s with trackingEvents := s.trackingEvents ++ [event],
                     lastTrackingUpdate := some now }
  match statusMapping status with
  | some mapped => s1.setShippingStatus mapped
  | none => s1

/-- Validation of one tracking event on save: status inside the closed
enumeration, required (hence non-empty) description, source inside the closed
enumeration. -/
def validTrackingEvent (e : TrackingEvent) : Bool :=
  trackingEventStatusEnum.contains e.status
    && e.description != ""
    && sourceEnum.contains e.source

/-- Document validation on save for the modelled fields: shipping status and
every tracking event inside their closed enumerations, and the return reason
inside its enumeration when present. -/
def validShipment (s : Shipment) : Bool :=
  shippingStatusEnum.contains s.shippingStatus
    && s.trackingEvents.all validTrackingEvent
    && (match s.returnInfo.reason with
        | none => true
        | some r => returnReasonEnum.contains r)

/-- First statement of the pre-save middleware: on a modified status equal to
`Shipped` with no stored `shippedAt`, stamp `shippedAt` with the current
time. -/
def preSaveShipped (s : Shipment) (now : Int) : Shipment :=
  if s.statusModified && s.shippingStatus == "Shipped" && s.shippedAt.isNone
  then { s with shippedAt := some now } else s

/-- Second statement of the pre-save middleware: on a modified status equal
to `Delivered` with no stored `actualDeliveryDate`, stamp
`actualDeliveryDate` with the current time. -/
def preSaveDelivered (s : Shipment) (now : Int) : Shipment :=
  if s.statusModified && s.shippingStatus == "Delivered"
      && s.actualDeliveryDate.isNone
  then { s with actualDeliveryDate := some now } else s

/-- The pre-save middleware: its two statements in source order. -/
def Shipment.preSave (s : Shipment) (now : Int) : Shipment :=
  preSaveDelivered (preSaveShipped s now) now

/-- Persistence: validate, run the pre-save middleware, clear the modified
flag; an invalid document is the `ValidationError` outcome. -/
def Shipment.save (s : Shipment) (now : Int) : Except String Shipment :=
  if validShipment s then .ok { s.preSave now with statusModified := false }
  else .error "ValidationError"

/-- Method `updateStatus(newStatus, description = '', location = {})`: set the
status, append a manual event under the derived token, persist. -/
def Shipment.updateStatus (s : Shipment) (newStatus description : String)
    (location : LocationInfo) (now : Int) : Except String Shipment :=
  let s1 := s.setShippingStatus newStatus
  let s2 := s1.addTrackingEvent (statusToken newStatus) description location
    none now
  s2.save now

/-- Method `markAsDelivered(receivedBy = '', deliveryLocation = '', signature
= '', photo = '', notes = '')`: unconditionally set status `Delivered` and
`actualDeliveryDate`, replace the delivery sub-record, append a `delivered`
event, persist. -/
def Shipment.markAsDelivered (s : Shipment)
    (receivedBy deliveryLocation signature photo notes : String)
    (now : Int) : Except String Shipment :=
  let s1 := s.setShippingStatus "Delivered"
  let s2 := { s1 with
    actualDeliveryDate := some now,
    delivery := { receivedBy := receivedBy,
                  deliveryLocation := deliveryLocation,
                  signature := signature, deliveryPhoto := photo,
                  deliveryNotes := notes } }
  let desc := "Colis livré" ++ (if receivedBy = "" then ""
    else " à " ++ receivedBy)
  let s3 := s2.addTrackingEvent "delivered" desc {} (some now) now
  s3.save now

/-- Method `processReturn(reason, returnTrackingNumber = '')`: set the return
sub-record, set status `Returned`, append a `returned` event, persist. -/
def Shipment.processReturn (s : Shipment)
    (reason returnTrackingNumber : String) (now : Int) :
    Except String Shipment :=
  let s1 := { s with returnInfo :=
    { isReturned := true, reason := some reason, returnedAt := some now,
      returnTrackingNumber := some returnTrackingNumber } }
  let s2 := s1.setShippingStatus "Returned"
  let s3 := s2.addTrackingEvent "returned"
    ("Colis retourné - Raison: " ++ reason) {} (some now) now
  s3.save now

/-- The carrier-specific tracking URL table, with the tracking number
interpolated at the end of each template. -/
def carrierTrackingUrl (carrier trackingNumber : String) : Option String :=
  if carrier = "La Poste" then
    some ("https://www.laposte.fr/outils/suivre-vos-envois?code="
      ++ trackingNumber)
  else if carrier = "Chronopost" then
    some ("https://www.chronopost.fr/tracking-colis?listeNumerosLT="
      ++ trackingNumber)
  else if carrier = "DHL" then
    some ("https://www.dhl.com/fr-fr/home/tracking/tracking-express.html?submit=1&tracking-id="
      ++ trackingNumber)
  else if carrier = "UPS" then
    some ("https://www.ups.com/track?loc=fr_FR&tracknum=" ++ trackingNumber)
  else if carrier = "FedEx" then
    some ("https://www.fedex.com/apps/fedextrack/?tracknumbers="
      ++ trackingNumber)
  else if carrier = "TNT" then
    some ("https://www.tnt.com/express/fr_fr/site/shipping-tools/tracking.html?searchType=con&cons="
      ++ trackingNumber)
  else none

/-- Method `generateTrackingUrl()`: write the looked-up URL (empty string for
an unmapped carrier) into `trackingUrl` and return it. -/
def Shipment.generateTrackingUrl (s : Shipment) : Shipment × String :=
  let url := (carrierTrackingUrl s.carrier s.trackingNumber).getD ""
  ({ s with trackingUrl := url }, url)

/-- Day of week of a day index, 0 = Sunday through 6 = Saturday
(day 0 was a Thursday). -/
def dayOfWeek (d : Int) : Int := (d + 4) % 7

/-- Whether the delivery estimator counts a calendar day: never a Sunday, and
a Saturday only under Saturday delivery. -/
def countedDay (saturdayDelivery : Bool) (d : Int) : Bool :=
  dayOfWeek d != 0 && (dayOfWeek d != 6 || saturdayDelivery)

/-- The day-stepping loop of `calculateEstimatedDelivery`: advance one
calendar day at a time, decrementing the remaining count on counted days.
The fuel bounds the number of calendar days inspected; since uncounted days
come in runs of at most two, `2 * remaining + 7` calendar days always
suffice. -/
def deliveryLoop (saturdayDelivery : Bool) : Nat → Nat → Int → Int
  | 0, _, d => d
  | _ + 1, 0, d => d
  | fuel + 1, remaining + 1, d =>
    let d1 := d + 1
    if countedDay saturdayDelivery d1 then
      deliveryLoop saturdayDelivery fuel remaining d1
    else
      deliveryLoop saturdayDelivery fuel (remaining + 1) d1

/-- The `maxDays` read in `calculateEstimatedDelivery`: the stored
`deliveryTimeframe.max` when that value is truthy, else 7. -/
def maxDeliveryDays (tf : Timeframe) : Nat :=
  match tf.max with
  | some m => if m = 0 then 7 else m
  | none => 7

/-- Fuel sufficient for `deliveryLoop` to count `maxDays` days. -/
def deliveryLoopFuel (maxDays : Nat) : Nat := 2 * maxDays + 7

/-- Method `calculateEstimatedDelivery()`: null unless both `shippedAt` and
`deliveryTimeframe` are present; otherwise walk forward from the ship date
until `maxDays` counted days have passed, write the resulting date into
`estimatedDeliveryDate` and return it. -/
def Shipment.calculateEstimatedDelivery (s : Shipment) :
    Shipment × Option Int :=
  match s.shippedAt, s.deliveryTimeframe with
  | some shipped, some tf =>
    let maxDays := maxDeliveryDays tf
    let d := deliveryLoop s.saturdayDelivery (deliveryLoopFuel maxDays)
      maxDays shipped
    ({ s with estimatedDeliveryDate := some d }, some d)
  | _, _ => (s, none)

/-- Descending-timestamp comparator of `getLatestTrackingEvent`. -/
def laterEvent (a b : TrackingEvent) : Bool := b.timestamp ≤ a.timestamp

/-- Method `getLatestTrackingEvent()`: null on an empty event list; otherwise
sort the stored list in place in descending timestamp order (a stable sort,
as in the host runtime) and return its first element. -/
def Shipment.getLatestTrackingEvent (s : Shipment) :
    Shipment × Option TrackingEvent :=
  if s.trackingEvents = [] then (s, none)
  else
    ({ s with trackingEvents := s.trackingEvents.mergeSort laterEvent },
     (s.trackingEvents.mergeSort laterEvent).head?)

/-- One stored shipment row as seen by the statistics aggregation; timestamps
here are in milliseconds, matching the millisecond arithmetic of the source
pipeline. -/
structure StatRecord where
  sellerID : Nat := 0
  shippedAt : Option Int := none
  actualDeliveryDate : Option Int := none
  shippingStatus : String := "Pending"
  carrier : String := "La Poste"
deriving DecidableEq

/-- The match stage built by `getShippingStats`: optional seller equality and
optional inclusive ship-date range (a record without a ship date matches no
range clause). -/
def statsMatch (sellerId : Option Nat) (startDate endDate : Option Int)
    (r : StatRecord) : Bool :=
  (match sellerId with
   | none => true
   | some sid => r.sellerID == sid)
    && (match startDate with
        | none => true
        | some sd =>
          match r.shippedAt with
          | none => false
          | some t => sd ≤ t)
    && (match endDate with
        | none => true
        | some ed =>
          match r.shippedAt with
          | none => false
          | some t => t ≤ ed)

/-- Delivery duration of one record in days (milliseconds divided by
86400000), when both dates are present. -/
def deliveryDaysOf (r : StatRecord) : Option ℚ :=
  match r.shippedAt, r.actualDeliveryDate with
  | some a, some b => some (((b - a : Int) : ℚ) / (1000 * 60 * 60 * 24))
  | _, _ => none

/-- The result shape of `getShippingStats`; `averageDeliveryDays` is `none`
when the aggregated average is null (no matched record carries both
dates). -/
structure ShippingStats where
  totalShipments : Nat
  deliveredCount : Nat
  inTransitCount : Nat
  failedCount : Nat
  averageDeliveryDays : Option ℚ
  carrierBreakdown : List String
deriving DecidableEq

/-- Static `getShippingStats(sellerId, startDate, endDate)` over the stored
collection: grouped counts over the matched records, or the literal zero
shape when nothing matches. -/
def getShippingStats (db : List StatRecord) (sellerId : Option Nat)
    (startDate endDate : Option Int) : ShippingStats :=
  let matched := db.filter (statsMatch sellerId startDate endDate)
  match matched with
  | [] =>
    { totalShipments := 0, deliveredCount := 0, inTransitCount := 0,
      failedCount := 0, averageDeliveryDays := some 0,
      carrierBreakdown := [] }
  | _ =>
    let durations := matched.filterMap deliveryDaysOf
    { totalShipments := matched.length,
      deliveredCount := (matched.filter
        (fun r => r.shippingStatus == "Delivered")).length,
      inTransitCount := (matched.filter (fun r =>
        ["Shipped", "In Transit", "Out for Delivery"].contains
          r.shippingStatus)).length,
      failedCount := (matched.filter
        (fun r => r.shippingStatus == "Delivery Failed")).length,
      averageDeliveryDays :=
        match durations with
        | [] => none
        | _ => some (durations.sum / (durations.length : ℚ)),
      carrierBreakdown := matched.map (fun r => r.carrier) }


/-- A concrete valid shipment used as test input for witnesses. -/
def sampleShipment : Shipment :=
  { carrier := "La Poste", trackingNumber := "TN001",
    shippingStatus := "Pending",
    trackingEvents := [{ status := "label_created",
                         description := "Etiquette creee", timestamp := 100,
                         source := "api" }] }

/-- A concrete shipment with the unmapped carrier `Autre`. -/
def sampleAutreShipment : Shipment :=
  { carrier := "Autre", trackingNumber := "TN002",
    shippingStatus := "Shipped" }

/-- A concrete shipment shipped on a Monday (day 4 = 1970-01-05) with a
five-day maximal timeframe and no Saturday delivery. -/
def sampleMondayShipment : Shipment :=
  { carrier := "La Poste", trackingNumber := "TN003",
    shippingStatus := "Shipped", shippedAt := some 4,
    deliveryTimeframe := some { min := some 2, max := some 5 },
    saturdayDelivery := false }

/-- A concrete shipment with several tracking events in scrambled timestamp
order. -/
def sampleEventfulShipment : Shipment :=
  { carrier := "DHL", trackingNumber := "TN004",
    shippingStatus := "In Transit",
    trackingEvents :=
      [{ status := "picked_up", description := "Pris en charge",
         timestamp := 5, source := "carrier" },
       { status := "in_transit", description := "En transit",
         timestamp := 9, source := "carrier" },
       { status := "label_created", description := "Etiquette creee",
         timestamp := 2, source := "api" }] }

deriving instance DecidableEq for Except

/-- A non-empty string stays non-empty after appending. -/
theorem append_ne_empty_left (p r : String) (hp : p ≠ "") : p ++ r ≠ "" := by
  intro h
  apply hp
  have hd := congrArg String.data h
  rw [String.data_append] at hd
  cases p with
  | mk l =>
    simp at hd
    simp [hd]

-- Helper lemmas ------------------------------------------------------------

/-- Every value produced by the status mapping lies in the shipping-status
enumeration. -/
theorem statusMapping_mem_enum (t v : String) (h : statusMapping t = some v) :
    shippingStatusEnum.contains v = true := by
  unfold statusMapping at h
  split_ifs at h <;> simp only [Option.some.injEq] at h <;> subst h <;> decide

/-- Every key of the status mapping is a valid tracking-event status. -/
theorem statusMapping_key_valid (t v : String)
    (h : statusMapping t = some v) :
    trackingEventStatusEnum.contains t = true := by
  unfold statusMapping at h
  split_ifs at h with h1 h2 h3 h4 h5 h6 h7 h8 <;> simp_all <;> subst_vars <;>
    decide

/-- The event appended by `addTrackingEvent`. -/
def manualEvent (status description : String) (location : LocationInfo)
    (timestamp : Option Int) (now : Int) : TrackingEvent :=
  { status := status, description := description, location := location,
    timestamp := timestamp.getD now, source := "manual" }

theorem setShippingStatus_shippingStatus (s : Shipment) (v : String) :
    (s.setShippingStatus v).shippingStatus = v := by
  unfold Shipment.setShippingStatus
  split <;> simp_all

theorem setShippingStatus_frame (s : Shipment) (v : String) :
    (s.setShippingStatus v).trackingEvents = s.trackingEvents
      ∧ (s.setShippingStatus v).lastTrackingUpdate = s.lastTrackingUpdate
      ∧ (s.setShippingStatus v).shippedAt = s.shippedAt
      ∧ (s.setShippingStatus v).actualDeliveryDate = s.actualDeliveryDate
      ∧ (s.setShippingStatus v).delivery = s.delivery
      ∧ (s.setShippingStatus v).returnInfo = s.returnInfo := by
  unfold Shipment.setShippingStatus
  split <;> simp_all

theorem addTrackingEvent_trackingEvents (s : Shipment)
    (tok desc : String) (loc : LocationInfo) (ts : Option Int) (now : Int) :
    (s.addTrackingEvent tok desc loc ts now).trackingEvents
      = s.trackingEvents ++ [manualEvent tok desc loc ts now] := by
  unfold Shipment.addTrackingEvent manualEvent
  cases h : statusMapping tok <;>
    simp_all [Shipment.setShippingStatus] <;> split <;> simp_all

theorem addTrackingEvent_lastTrackingUpdate (s : Shipment)
    (tok desc : String) (loc : LocationInfo) (ts : Option Int) (now : Int) :
    (s.addTrackingEvent tok desc loc ts now).lastTrackingUpdate = some now := by
  unfold Shipment.addTrackingEvent
  cases h : statusMapping tok <;>
    simp_all [Shipment.setShippingStatus] <;> split <;> simp_all

theorem addTrackingEvent_shippingStatus (s : Shipment)
    (tok desc : String) (loc : LocationInfo) (ts : Option Int) (now : Int) :
    (s.addTrackingEvent tok desc loc ts now).shippingStatus
      = (statusMapping tok).getD s.shippingStatus := by
  unfold Shipment.addTrackingEvent
  cases h : statusMapping tok <;>
    simp_all [Shipment.setShippingStatus] <;> split <;> simp_all

theorem addTrackingEvent_frame (s : Shipment)
    (tok desc : String) (loc : LocationInfo) (ts : Option Int) (now : Int) :
    (s.addTrackingEvent tok desc loc ts now).shippedAt = s.shippedAt
      ∧ (s.addTrackingEvent tok desc loc ts now).actualDeliveryDate
          = s.actualDeliveryDate
      ∧ (s.addTrackingEvent tok desc loc ts now).delivery = s.delivery
      ∧ (s.addTrackingEvent tok desc loc ts now).returnInfo = s.returnInfo := by
  unfold Shipment.addTrackingEvent
  cases h : statusMapping tok <;>
    simp_all [Shipment.setShippingStatus] <;> split <;> simp_all

theorem preSave_frame (s : Shipment) (now : Int) :
    (s.preSave now).shippingStatus = s.shippingStatus
      ∧ (s.preSave now).trackingEvents = s.trackingEvents
      ∧ (s.preSave now).lastTrackingUpdate = s.lastTrackingUpdate
      ∧ (s.preSave now).delivery = s.delivery
      ∧ (s.preSave now).returnInfo = s.returnInfo
      ∧ (s.preSave now).statusModified = s.statusModified := by
  unfold Shipment.preSave preSaveShipped preSaveDelivered
  split <;> split <;> simp_all

theorem preSave_shippedAt_some (s : Shipment) (now t : Int)
    (h : s.shippedAt = some t) : (s.preSave now).shippedAt = some t := by
  unfold Shipment.preSave preSaveShipped preSaveDelivered
  split <;> split <;> simp_all

theorem preSave_shippedAt_sets (s : Shipment) (now : Int)
    (hm : s.statusModified = true) (hs : s.shippingStatus = "Shipped")
    (h0 : s.shippedAt = none) : (s.preSave now).shippedAt = some now := by
  unfold Shipment.preSave preSaveShipped preSaveDelivered
  split <;> split <;> simp_all

theorem preSave_actualDeliveryDate_some (s : Shipment) (now t : Int)
    (h : s.actualDeliveryDate = some t) :
    (s.preSave now).actualDeliveryDate = some t := by
  unfold Shipment.preSave preSaveShipped preSaveDelivered
  split <;> split <;> simp_all

theorem preSave_actualDeliveryDate_sets (s : Shipment) (now : Int)
    (hm : s.statusModified = true) (hs : s.shippingStatus = "Delivered")
    (h0 : s.actualDeliveryDate = none) :
    (s.preSave now).actualDeliveryDate = some now := by
  unfold Shipment.preSave preSaveShipped preSaveDelivered
  split <;> split <;> simp_all

theorem save_ok_of_valid (s : Shipment) (now : Int)
    (h : validShipment s = true) :
    s.save now = .ok { s.preSave now with statusModified := false } := by
  simp [Shipment.save, h]

theorem save_error_of_invalid (s : Shipment) (now : Int)
    (h : validShipment s = false) :
    s.save now = .error "ValidationError" := by
  simp [Shipment.save, h]

theorem save_ok_inv (s : Shipment) (now : Int) (s' : Shipment)
    (h : s.save now = .ok s') :
    s' = { s.preSave now with statusModified := false } := by
  unfold Shipment.save at h
  split at h <;> simp_all

theorem validShipment_parts (s : Shipment) :
    validShipment s = true ↔
      shippingStatusEnum.contains s.shippingStatus = true
        ∧ s.trackingEvents.all validTrackingEvent = true
        ∧ (match s.returnInfo.reason with
           | none => true
           | some r => returnReasonEnum.contains r) = true := by
  unfold validShipment
  simp [Bool.and_eq_true, and_assoc]

-- Claim C2 ------------------------------------------------------------------

/-- C2: for every shipment and event status token, `addTrackingEvent` appends
exactly one event (timestamp defaulting to now, source `manual`), updates
`lastTrackingUpdate`, and overwrites the overall status to the value of the
fixed mapping at the token when the token is a key (so a `delivered` event
sets status `Delivered` with no `updateStatus` call), leaving the overall
status unchanged for every token outside the mapping (such as
`label_created`). -/
theorem addTrackingEvent_correct (s : Shipment) (tok desc : String)
    (loc : LocationInfo) (ts : Option Int) (now : Int) :
    (s.addTrackingEvent tok desc loc ts now).trackingEvents
        = s.trackingEvents ++ [manualEvent tok desc loc ts now]
      ∧ (manualEvent tok desc loc ts now).source = "manual"
      ∧ (manualEvent tok desc loc none now).timestamp = now
      ∧ (s.addTrackingEvent tok desc loc ts now).lastTrackingUpdate = some now
      ∧ (s.addTrackingEvent tok desc loc ts now).shippingStatus
          = (statusMapping tok).getD s.shippingStatus
      ∧ statusMapping "delivered" = some "Delivered"
      ∧ statusMapping "out_for_delivery" = some "Out for Delivery"
      ∧ statusMapping "in_transit" = some "In Transit"
      ∧ statusMapping "picked_up" = some "Shipped"
      ∧ statusMapping "exception" = some "Delivery Failed"
      ∧ statusMapping "returned" = some "Returned"
      ∧ statusMapping "lost" = some "Lost"
      ∧ statusMapping "damaged" = some "Damaged"
      ∧ statusMapping "label_created" = none := by
  refine ⟨addTrackingEvent_trackingEvents s tok desc loc ts now, rfl, rfl,
    addTrackingEvent_lastTrackingUpdate s tok desc loc ts now,
    addTrackingEvent_shippingStatus s tok desc loc ts now,
    ?_, ?_, ?_, ?_, ?_, ?_, ?_, ?_, ?_⟩ <;> decide

-- Claim C9 ------------------------------------------------------------------

/-- C9: `generateTrackingUrl` writes into `trackingUrl` and returns the
carrier template with the tracking number interpolated for each of the six
mapped carriers, and the empty string for every other carrier, in particular
`Autre`. -/
theorem generateTrackingUrl_correct (s : Shipment) :
    (s.generateTrackingUrl).1
        = { s with trackingUrl := (s.generateTrackingUrl).2 }
      ∧ (s.carrier = "La Poste" → (s.generateTrackingUrl).2
          = "https://www.laposte.fr/outils/suivre-vos-envois?code="
            ++ s.trackingNumber)
      ∧ (s.carrier = "Chronopost" → (s.generateTrackingUrl).2
          = "https://www.chronopost.fr/tracking-colis?listeNumerosLT="
            ++ s.trackingNumber)
      ∧ (s.carrier = "DHL" → (s.generateTrackingUrl).2
          = "https://www.dhl.com/fr-fr/home/tracking/tracking-express.html?submit=1&tracking-id="
            ++ s.trackingNumber)
      ∧ (s.carrier = "UPS" → (s.generateTrackingUrl).2
          = "https://www.ups.com/track?loc=fr_FR&tracknum="
            ++ s.trackingNumber)
      ∧ (s.carrier = "FedEx" → (s.generateTrackingUrl).2
          = "https://www.fedex.com/apps/fedextrack/?tracknumbers="
            ++ s.trackingNumber)
      ∧ (s.carrier = "TNT" → (s.generateTrackingUrl).2
          = "https://www.tnt.com/express/fr_fr/site/shipping-tools/tracking.html?searchType=con&cons="
            ++ s.trackingNumber)
      ∧ (s.carrier ∉ ["La Poste", "Chronopost", "DHL", "UPS", "FedEx", "TNT"]
          → (s.generateTrackingUrl).2 = "") := by
  refine ⟨rfl, ?_, ?_, ?_, ?_, ?_, ?_, ?_⟩
  · intro h; simp [Shipment.generateTrackingUrl, carrierTrackingUrl, h]
  · intro h; simp [Shipment.generateTrackingUrl, carrierTrackingUrl, h]
  · intro h; simp [Shipment.generateTrackingUrl, carrierTrackingUrl, h]
  · intro h; simp [Shipment.generateTrackingUrl, carrierTrackingUrl, h]
  · intro h; simp [Shipment.generateTrackingUrl, carrierTrackingUrl, h]
  · intro h; simp [Shipment.generateTrackingUrl, carrierTrackingUrl, h]
  · intro h
    simp only [List.mem_cons, not_or] at h
    obtain ⟨h1, h2, h3, h4, h5, h6, -⟩ := h
    simp [Shipment.generateTrackingUrl, carrierTrackingUrl, h1, h2, h3, h4,
      h5, h6]

/-- Witness for C9 at the concrete carrier `Autre`. -/
theorem generateTrackingUrl_correct_witness :
    sampleAutreShipment.carrier
        ∉ ["La Poste", "Chronopost", "DHL", "UPS", "FedEx", "TNT"]
      ∧ (sampleAutreShipment.generateTrackingUrl).2 = "" :=
  ⟨by decide,
   (generateTrackingUrl_correct sampleAutreShipment).2.2.2.2.2.2.2 (by decide)⟩

-- Claim C8 ------------------------------------------------------------------

/-- C8: `getShippingStats` returns the literal zero shape, without error,
when the filter matches no record; otherwise it returns the matched count,
the count with status `Delivered`, the count with status among
Shipped/In Transit/Out for Delivery, the count with status
`Delivery Failed`, the mean delivery duration in days over records carrying
both dates, and the carrier of every matched record with duplicates
included. -/
theorem getShippingStats_correct (db : List StatRecord) (sid : Option Nat)
    (sd ed : Option Int) :
    (db.filter (statsMatch sid sd ed) = [] →
      getShippingStats db sid sd ed
        = { totalShipments := 0, deliveredCount := 0, inTransitCount := 0,
            failedCount := 0, averageDeliveryDays := some 0,
            carrierBreakdown := [] })
    ∧ (db.filter (statsMatch sid sd ed) ≠ [] →
        (getShippingStats db sid sd ed).totalShipments
            = (db.filter (statsMatch sid sd ed)).length
        ∧ (getShippingStats db sid sd ed).deliveredCount
            = (db.filter (statsMatch sid sd ed)).countP
                (fun r => r.shippingStatus == "Delivered")
        ∧ (getShippingStats db sid sd ed).inTransitCount
            = (db.filter (statsMatch sid sd ed)).countP (fun r =>
                ["Shipped", "In Transit", "Out for Delivery"].contains
                  r.shippingStatus)
        ∧ (getShippingStats db sid sd ed).failedCount
            = (db.filter (statsMatch sid sd ed)).countP
                (fun r => r.shippingStatus == "Delivery Failed")
        ∧ (getShippingStats db sid sd ed).averageDeliveryDays
            = (match (db.filter (statsMatch sid sd ed)).filterMap
                  deliveryDaysOf with
               | [] => none
               | ds => some (ds.sum / (ds.length : ℚ)))
        ∧ (getShippingStats db sid sd ed).carrierBreakdown
            = (db.filter (statsMatch sid sd ed)).map (fun r => r.carrier)) := by
  cases hm : db.filter (statsMatch sid sd ed) with
  | nil =>
    refine ⟨fun _ => ?_, fun h => absurd rfl h⟩
    simp [getShippingStats, hm]
  | cons a l =>
    refine ⟨fun h => absurd h (List.cons_ne_nil a l), fun _ => ?_⟩
    refine ⟨?_, ?_, ?_, ?_, ?_, ?_⟩
    · simp [getShippingStats, hm]
    · simp [getShippingStats, hm, List.countP_eq_length_filter]
    · simp [getShippingStats, hm, List.countP_eq_length_filter]
    · simp [getShippingStats, hm, List.countP_eq_length_filter]
    · simp only [getShippingStats, hm]
      cases List.filterMap deliveryDaysOf (a :: l) <;> rfl
    · simp [getShippingStats, hm]

/-- Witness for C8 on the empty collection. -/
theorem getShippingStats_correct_witness :
    getShippingStats [] none none none
      = { totalShipments := 0, deliveredCount := 0, inTransitCount := 0,
          failedCount := 0, averageDeliveryDays := some 0,
          carrierBreakdown := [] } :=
  (getShippingStats_correct [] none none none).1 rfl

-- Claim C4 ------------------------------------------------------------------

/-- A concrete modified shipment about to be saved as Delivered. -/
def sampleDeliveredPending : Shipment :=
  { trackingNumber := "TN005", shippingStatus := "Delivered",
    statusModified := true }

/-- C4: the save path sets `actualDeliveryDate` to now exactly on a save
whose status was modified to `Delivered` while the date was absent, and
never changes an already present value; `markAsDelivered` instead
unconditionally sets status `Delivered`, overwrites `actualDeliveryDate`
with now, replaces the delivery sub-record wholesale, appends one
`delivered` event, and persists. -/
theorem actualDeliveryDate_two_paths :
    (∀ (s : Shipment) (now : Int) (s' : Shipment), s.save now = .ok s' →
      ((s.statusModified = true ∧ s.shippingStatus = "Delivered"
          ∧ s.actualDeliveryDate = none) → s'.actualDeliveryDate = some now)
      ∧ (∀ t, s.actualDeliveryDate = some t →
          s'.actualDeliveryDate = some t))
    ∧ (∀ (s : Shipment) (rb dl sg ph nt : String) (now : Int),
        validShipment s = true →
        ∃ s', s.markAsDelivered rb dl sg ph nt now = .ok s'
          ∧ s'.shippingStatus = "Delivered"
          ∧ s'.actualDeliveryDate = some now
          ∧ s'.delivery = { receivedBy := rb, deliveryLocation := dl,
                            signature := sg, deliveryPhoto := ph,
                            deliveryNotes := nt }
          ∧ s'.trackingEvents = s.trackingEvents
              ++ [manualEvent "delivered"
                    ("Colis livré" ++ (if rb = "" then "" else " à " ++ rb))
                    {} (some now) now]) := by
  constructor
  · intro s now s' h
    have hs := save_ok_inv s now s' h
    subst hs
    constructor
    · rintro ⟨hm, hd, h0⟩
      exact preSave_actualDeliveryDate_sets s now hm hd h0
    · intro t ht
      exact preSave_actualDeliveryDate_some s now t ht
  · intro s rb dl sg ph nt now hv
    obtain ⟨hA, hB, hC⟩ := (validShipment_parts s).mp hv
    unfold Shipment.markAsDelivered
    set s1 := s.setShippingStatus "Delivered" with hs1
    obtain ⟨f1, f2, f3, f4, f5, f6⟩ := setShippingStatus_frame s "Delivered"
    set desc := "Colis livré" ++ (if rb = "" then "" else " à " ++ rb)
      with hdesc
    set s2 : Shipment := { s1 with
      actualDeliveryDate := some now,
      delivery := { receivedBy := rb, deliveryLocation := dl,
                    signature := sg, deliveryPhoto := ph,
                    deliveryNotes := nt } } with hs2
    set s3 := s2.addTrackingEvent "delivered" desc {} (some now) now with hs3
    have hst : s3.shippingStatus = "Delivered" := by
      rw [hs3, addTrackingEvent_shippingStatus,
        show statusMapping "delivered" = some "Delivered" from by decide]
      rfl
    have hev : s3.trackingEvents
        = s.trackingEvents ++ [manualEvent "delivered" desc {} (some now)
            now] := by
      rw [hs3, addTrackingEvent_trackingEvents]
      have : s2.trackingEvents = s.trackingEvents := f1
      rw [this]
    obtain ⟨g1, g2, g3, g4⟩ := addTrackingEvent_frame s2 "delivered" desc {}
      (some now) now
    have hvalid : validShipment s3 = true := by
      rw [validShipment_parts]
      refine ⟨?_, ?_, ?_⟩
      · rw [hst]; decide
      · rw [hev, List.all_append]
        simp only [Bool.and_eq_true]
        refine ⟨hB, ?_⟩
        simp only [List.all_cons, List.all_nil, Bool.and_true]
        unfold validTrackingEvent manualEvent
        simp only [Bool.and_eq_true, bne_iff_ne]
        refine ⟨⟨by decide, ?_⟩, by decide⟩
        exact append_ne_empty_left "Colis livré" _ (by decide)
      · have : s3.returnInfo = s.returnInfo := by
          rw [← hs3] at g4
          rw [g4, hs2]
          exact f6
        rw [this]
        exact hC
    refine ⟨{ s3.preSave now with statusModified := false },
      save_ok_of_valid s3 now hvalid, ?_, ?_, ?_, ?_⟩
    · have := (preSave_frame s3 now).1
      simpa [this] using hst
    · have had : s3.actualDeliveryDate = some now := by
        rw [← hs3] at g2
        rw [g2, hs2]
      exact preSave_actualDeliveryDate_some s3 now now had
    · have hdel : s3.delivery = ⟨rb, dl, sg, ph, nt⟩ := by
        rw [← hs3] at g3
        rw [g3, hs2]
      have := (preSave_frame s3 now).2.2.2.1
      simpa [this] using hdel
    · have := (preSave_frame s3 now).2.1
      simpa [this] using hev

/-- Witness for C4: a concrete save-path stamp and a concrete
`markAsDelivered` run. -/
theorem actualDeliveryDate_two_paths_witness :
    (sampleDeliveredPending.save 50
        = .ok { sampleDeliveredPending with
                actualDeliveryDate := some 50
                statusModified := false })
      ∧ ({ sampleDeliveredPending with
           actualDeliveryDate := some 50
           statusModified := false } : Shipment).actualDeliveryDate = some 50
      ∧ validShipment sampleShipment = true
      ∧ (∃ s', sampleShipment.markAsDelivered "Alice" "" "" "" "" 60 = .ok s'
          ∧ s'.shippingStatus = "Delivered"
          ∧ s'.actualDeliveryDate = some 60
          ∧ s'.delivery = { receivedBy := "Alice", deliveryLocation := "",
                            signature := "", deliveryPhoto := "",
                            deliveryNotes := "" }
          ∧ s'.trackingEvents = sampleShipment.trackingEvents
              ++ [manualEvent "delivered"
                    ("Colis livré" ++ (if "Alice" = "" then ""
                      else " à " ++ "Alice")) {} (some 60) 60]) := by
  refine ⟨by decide, ?_, by decide, ?_⟩
  · exact (actualDeliveryDate_two_paths.1 sampleDeliveredPending 50
      { sampleDeliveredPending with
        actualDeliveryDate := some 50
        statusModified := false } (by decide)).1 ⟨rfl, rfl, rfl⟩
  · exact actualDeliveryDate_two_paths.2 sampleShipment "Alice" "" "" "" "" 60
      (by decide)

-- Claim C5 ------------------------------------------------------------------

/-- A concrete modified shipment about to be saved as Shipped. -/
def sampleShippedPending : Shipment :=
  { trackingNumber := "TN006", shippingStatus := "Shipped",
    statusModified := true }

/-- The persisted record of a concrete `updateStatus` run on the Monday
shipment. -/
def mondayUpdated : Shipment :=
  { sampleMondayShipment with
    shippingStatus := "In Transit",
    trackingEvents := [manualEvent "in_transit" "Mise à jour" {} none 70],
    lastTrackingUpdate := some 70,
    statusModified := false }

/-- C5: the save path stamps `shippedAt` with now exactly on a save whose
status was modified to `Shipped` while `shippedAt` was absent, and a stored
`shippedAt` value survives every save and every status update unchanged. -/
theorem shippedAt_set_once :
    (∀ (s : Shipment) (now : Int) (s' : Shipment), s.save now = .ok s' →
      ((s.statusModified = true ∧ s.shippingStatus = "Shipped"
          ∧ s.shippedAt = none) → s'.shippedAt = some now)
      ∧ (∀ t, s.shippedAt = some t → s'.shippedAt = some t))
    ∧ (∀ (s : Shipment) (ns desc : String) (loc : LocationInfo) (now : Int)
        (s' : Shipment) (t : Int), s.updateStatus ns desc loc now = .ok s' →
        s.shippedAt = some t → s'.shippedAt = some t) := by
  constructor
  · intro s now s' h
    have hs := save_ok_inv s now s' h
    subst hs
    exact ⟨fun hc => preSave_shippedAt_sets s now hc.1 hc.2.1 hc.2.2,
      fun t ht => preSave_shippedAt_some s now t ht⟩
  · intro s ns desc loc now s' t h ht
    unfold Shipment.updateStatus at h
    have hs := save_ok_inv _ now s' h
    subst hs
    apply preSave_shippedAt_some
    have h1 := (setShippingStatus_frame s ns).2.2.1
    have h2 := (addTrackingEvent_frame (s.setShippingStatus ns)
      (statusToken ns) desc loc none now).1
    rw [h2, h1, ht]

/-- Witness for C5: a concrete first stamp and a concrete preserved value
across an update. -/
theorem shippedAt_set_once_witness :
    (sampleShippedPending.save 40
        = .ok { sampleShippedPending with
                shippedAt := some 40
                statusModified := false })
      ∧ ({ sampleShippedPending with
           shippedAt := some 40
           statusModified := false } : Shipment).shippedAt = some 40
      ∧ sampleMondayShipment.updateStatus "In Transit" "Mise à jour" {} 70
          = .ok mondayUpdated
      ∧ mondayUpdated.shippedAt = some 4 := by
  refine ⟨by decide, ?_, by decide, ?_⟩
  · exact (shippedAt_set_once.1 sampleShippedPending 40
      { sampleShippedPending with
        shippedAt := some 40
        statusModified := false } (by decide)).1 ⟨rfl, rfl, rfl⟩
  · exact shippedAt_set_once.2 sampleMondayShipment "In Transit"
      "Mise à jour" {} 70 mondayUpdated 4 (by decide) rfl

-- Claim C6 ------------------------------------------------------------------

/-- C6: `processReturn` with a reason from the return-reason enumeration
sets the return sub-record to the flagged value, sets status `Returned`,
appends exactly one `returned` tracking event, and persists. -/
theorem processReturn_correct (s : Shipment) (reason rtn : String) (now : Int)
    (hv : validShipment s = true)
    (hr : returnReasonEnum.contains reason = true) :
    ∃ s', s.processReturn reason rtn now = .ok s'
      ∧ s'.returnInfo = { isReturned := true, reason := some reason,
                          returnedAt := some now,
                          returnTrackingNumber := some rtn }
      ∧ s'.shippingStatus = "Returned"
      ∧ s'.trackingEvents = s.trackingEvents
          ++ [manualEvent "returned" ("Colis retourné - Raison: " ++ reason)
                {} (some now) now] := by
  obtain ⟨hA, hB, hC⟩ := (validShipment_parts s).mp hv
  unfold Shipment.processReturn
  set s1 : Shipment := { s with
    returnInfo := { isReturned := true, reason := some reason,
                    returnedAt := some now,
                    returnTrackingNumber := some rtn } } with hs1
  set s2 := s1.setShippingStatus "Returned" with hs2
  set desc := "Colis retourné - Raison: " ++ reason with hdesc
  set s3 := s2.addTrackingEvent "returned" desc {} (some now) now with hs3
  obtain ⟨f1, f2, f3, f4, f5, f6⟩ := setShippingStatus_frame s1 "Returned"
  obtain ⟨g1, g2, g3, g4⟩ := addTrackingEvent_frame s2 "returned" desc {}
    (some now) now
  have hst : s3.shippingStatus = "Returned" := by
    rw [hs3, addTrackingEvent_shippingStatus,
      show statusMapping "returned" = some "Returned" from by decide]
    rfl
  have hret : s3.returnInfo = ⟨true, some reason, some now, some rtn⟩ := by
    rw [← hs3] at g4
    rw [g4, hs2, f6, hs1]
  have hev : s3.trackingEvents
      = s.trackingEvents ++ [manualEvent "returned" desc {} (some now)
          now] := by
    rw [hs3, addTrackingEvent_trackingEvents, hs2, f1, hs1]
  have hvalid : validShipment s3 = true := by
    rw [validShipment_parts]
    refine ⟨?_, ?_, ?_⟩
    · rw [hst]; decide
    · rw [hev, List.all_append]
      simp only [Bool.and_eq_true]
      refine ⟨hB, ?_⟩
      simp only [List.all_cons, List.all_nil, Bool.and_true]
      unfold validTrackingEvent manualEvent
      simp only [Bool.and_eq_true, bne_iff_ne]
      refine ⟨⟨by decide, ?_⟩, by decide⟩
      rw [hdesc]
      exact append_ne_empty_left "Colis retourné - Raison: " _ (by decide)
    · rw [hret]
      exact hr
  refine ⟨{ s3.preSave now with statusModified := false },
    save_ok_of_valid s3 now hvalid, ?_, ?_, ?_⟩
  · have := (preSave_frame s3 now).2.2.2.2.1
    simpa [this] using hret
  · have := (preSave_frame s3 now).1
    simpa [this] using hst
  · have := (preSave_frame s3 now).2.1
    simpa [this] using hev

/-- Witness for C6 at a concrete shipment with reason `other`. -/
theorem processReturn_correct_witness :
    validShipment sampleShipment = true
      ∧ returnReasonEnum.contains "other" = true
      ∧ (∃ s', sampleShipment.processReturn "other" "RT123" 80 = .ok s'
          ∧ s'.returnInfo = { isReturned := true, reason := some "other",
                              returnedAt := some 80,
                              returnTrackingNumber := some "RT123" }
          ∧ s'.shippingStatus = "Returned"
          ∧ s'.trackingEvents = sampleShipment.trackingEvents
              ++ [manualEvent "returned" ("Colis retourné - Raison: "
                    ++ "other") {} (some 80) 80]) :=
  ⟨by decide, by decide,
   processReturn_correct sampleShipment "other" "RT123" 80 (by decide)
     (by decide)⟩

-- Claim C7 ------------------------------------------------------------------

/-- C7: `getLatestTrackingEvent` returns null on an empty event list, and
otherwise returns an event of maximal timestamp while, as a side effect,
reordering the stored event list into timestamp-descending order — a
permutation of the original events — and leaving every other field
unchanged. -/
theorem getLatestTrackingEvent_correct (s : Shipment) :
    (s.trackingEvents = [] → s.getLatestTrackingEvent = (s, none))
    ∧ (s.trackingEvents ≠ [] →
        ∃ e, (s.getLatestTrackingEvent).2 = some e
          ∧ e ∈ s.trackingEvents
          ∧ (∀ e' ∈ s.trackingEvents, e'.timestamp ≤ e.timestamp)
          ∧ (s.getLatestTrackingEvent).1.trackingEvents.Perm s.trackingEvents
          ∧ List.Pairwise (fun a b => b.timestamp ≤ a.timestamp)
              (s.getLatestTrackingEvent).1.trackingEvents
          ∧ (s.getLatestTrackingEvent).1
              = { s with trackingEvents :=
                    (s.getLatestTrackingEvent).1.trackingEvents }) := by
  constructor
  · intro h
    unfold Shipment.getLatestTrackingEvent
    rw [if_pos h]
  · intro h
    unfold Shipment.getLatestTrackingEvent
    rw [if_neg h]
    have hperm := List.mergeSort_perm s.trackingEvents laterEvent
    have hsorted : (s.trackingEvents.mergeSort laterEvent).Pairwise
        (fun a b => laterEvent a b = true) := by
      apply List.sorted_mergeSort
      · intro a b c h1 h2
        simp only [laterEvent, decide_eq_true_eq] at *
        omega
      · intro a b
        simp only [laterEvent, Bool.or_eq_true, decide_eq_true_eq]
        omega
    cases hsort : s.trackingEvents.mergeSort laterEvent with
    | nil =>
      exfalso
      apply h
      rw [hsort] at hperm
      exact hperm.symm.eq_nil
    | cons e tl =>
      rw [hsort] at hperm hsorted
      refine ⟨e, rfl, ?_, ?_, hperm, ?_, rfl⟩
      · exact hperm.subset (List.mem_cons_self e tl)
      · intro e' he'
        rcases List.mem_cons.mp (hperm.symm.subset he') with rfl | htl
        · exact le_refl _
        · have := (List.pairwise_cons.mp hsorted).1 e' htl
          simpa [laterEvent] using this
      · exact hsorted.imp (by
          intro a b hab
          simpa [laterEvent] using hab)

/-- Witness for C7 at a shipment with three scrambled events. -/
theorem getLatestTrackingEvent_correct_witness :
    sampleEventfulShipment.trackingEvents ≠ []
      ∧ ∃ e, (sampleEventfulShipment.getLatestTrackingEvent).2 = some e
          ∧ e ∈ sampleEventfulShipment.trackingEvents
          ∧ (∀ e' ∈ sampleEventfulShipment.trackingEvents,
              e'.timestamp ≤ e.timestamp)
          ∧ (sampleEventfulShipment.getLatestTrackingEvent).1.trackingEvents.Perm
              sampleEventfulShipment.trackingEvents
          ∧ List.Pairwise (fun a b => b.timestamp ≤ a.timestamp)
              (sampleEventfulShipment.getLatestTrackingEvent).1.trackingEvents
          ∧ (sampleEventfulShipment.getLatestTrackingEvent).1
              = { sampleEventfulShipment with trackingEvents :=
                    (sampleEventfulShipment.getLatestTrackingEvent).1.trackingEvents } :=
  ⟨by decide,
   (getLatestTrackingEvent_correct sampleEventfulShipment).2 (by decide)⟩

-- Claims C3 and C10 ---------------------------------------------------------

/-- The day-stepping loop never moves the date backwards. -/
theorem deliveryLoop_le (sat : Bool) :
    ∀ (fuel rem : Nat) (d : Int), d ≤ deliveryLoop sat fuel rem d := by
  intro fuel
  induction fuel with
  | zero => intro rem d; exact le_refl _
  | succ n ih =>
    intro rem d
    cases rem with
    | zero => exact le_refl _
    | succ m =>
      simp only [deliveryLoop]
      split
      · exact le_trans (by omega) (ih m (d + 1))
      · exact le_trans (by omega) (ih (m + 1) (d + 1))

/-- With positive fuel and a positive remaining count the loop moves the
date strictly forward. -/
theorem deliveryLoop_lt (sat : Bool) (fuel rem : Nat) (d : Int)
    (hf : 0 < fuel) (hr : 0 < rem) : d < deliveryLoop sat fuel rem d := by
  cases fuel with
  | zero => omega
  | succ n =>
    cases rem with
    | zero => omega
    | succ m =>
      simp only [deliveryLoop]
      split
      · exact lt_of_lt_of_le (by omega) (deliveryLoop_le sat n m (d + 1))
      · exact lt_of_lt_of_le (by omega) (deliveryLoop_le sat n (m + 1) (d + 1))

/-- Five counted days from a Monday land on the following Monday: the
Saturday and Sunday in between are skipped, seven calendar days in all. -/
theorem deliveryLoop_monday (d : Int) (h : dayOfWeek d = 1) :
    deliveryLoop false 17 5 d = d + 7 := by
  unfold dayOfWeek at h
  have c1 : countedDay false (d + 1) = true := by
    simp [countedDay, dayOfWeek]; omega
  have c2 : countedDay false (d + 1 + 1) = true := by
    simp [countedDay, dayOfWeek]; omega
  have c3 : countedDay false (d + 1 + 1 + 1) = true := by
    simp [countedDay, dayOfWeek]; omega
  have c4 : countedDay false (d + 1 + 1 + 1 + 1) = true := by
    simp [countedDay, dayOfWeek]; omega
  have c5 : countedDay false (d + 1 + 1 + 1 + 1 + 1) = false := by
    simp [countedDay, dayOfWeek]; omega
  have c6 : countedDay false (d + 1 + 1 + 1 + 1 + 1 + 1) = false := by
    simp [countedDay, dayOfWeek]; omega
  have c7 : countedDay false (d + 1 + 1 + 1 + 1 + 1 + 1 + 1) = true := by
    simp [countedDay, dayOfWeek]; omega
  have e1 : deliveryLoop false 17 5 d = deliveryLoop false 16 4 (d + 1) := by
    rw [show deliveryLoop false 17 5 d
        = (if countedDay false (d + 1) then deliveryLoop false 16 4 (d + 1)
           else deliveryLoop false 16 5 (d + 1)) from rfl, c1]
    rfl
  have e2 : deliveryLoop false 16 4 (d + 1)
      = deliveryLoop false 15 3 (d + 1 + 1) := by
    rw [show deliveryLoop false 16 4 (d + 1)
        = (if countedDay false (d + 1 + 1)
           then deliveryLoop false 15 3 (d + 1 + 1)
           else deliveryLoop false 15 4 (d + 1 + 1)) from rfl, c2]
    rfl
  have e3 : deliveryLoop false 15 3 (d + 1 + 1)
      = deliveryLoop false 14 2 (d + 1 + 1 + 1) := by
    rw [show deliveryLoop false 15 3 (d + 1 + 1)
        = (if countedDay false (d + 1 + 1 + 1)
           then deliveryLoop false 14 2 (d + 1 + 1 + 1)
           else deliveryLoop false 14 3 (d + 1 + 1 + 1)) from rfl, c3]
    rfl
  have e4 : deliveryLoop false 14 2 (d + 1 + 1 + 1)
      = deliveryLoop false 13 1 (d + 1 + 1 + 1 + 1) := by
    rw [show deliveryLoop false 14 2 (d + 1 + 1 + 1)
        = (if countedDay false (d + 1 + 1 + 1 + 1)
           then deliveryLoop false 13 1 (d + 1 + 1 + 1 + 1)
           else deliveryLoop false 13 2 (d + 1 + 1 + 1 + 1)) from rfl, c4]
    rfl
  have e5 : deliveryLoop false 13 1 (d + 1 + 1 + 1 + 1)
      = deliveryLoop false 12 1 (d + 1 + 1 + 1 + 1 + 1) := by
    rw [show deliveryLoop false 13 1 (d + 1 + 1 + 1 + 1)
        = (if countedDay false (d + 1 + 1 + 1 + 1 + 1)
           then deliveryLoop false 12 0 (d + 1 + 1 + 1 + 1 + 1)
           else deliveryLoop false 12 1 (d + 1 + 1 + 1 + 1 + 1)) from rfl, c5]
    rfl
  have e6 : deliveryLoop false 12 1 (d + 1 + 1 + 1 + 1 + 1)
      = deliveryLoop false 11 1 (d + 1 + 1 + 1 + 1 + 1 + 1) := by
    rw [show deliveryLoop false 12 1 (d + 1 + 1 + 1 + 1 + 1)
        = (if countedDay false (d + 1 + 1 + 1 + 1 + 1 + 1)
           then deliveryLoop false 11 0 (d + 1 + 1 + 1 + 1 + 1 + 1)
           else deliveryLoop false 11 1 (d + 1 + 1 + 1 + 1 + 1 + 1))
          from rfl, c6]
    rfl
  have e7 : deliveryLoop false 11 1 (d + 1 + 1 + 1 + 1 + 1 + 1)
      = deliveryLoop false 10 0 (d + 1 + 1 + 1 + 1 + 1 + 1 + 1) := by
    rw [show deliveryLoop false 11 1 (d + 1 + 1 + 1 + 1 + 1 + 1)
        = (if countedDay false (d + 1 + 1 + 1 + 1 + 1 + 1 + 1)
           then deliveryLoop false 10 0 (d + 1 + 1 + 1 + 1 + 1 + 1 + 1)
           else deliveryLoop false 10 1 (d + 1 + 1 + 1 + 1 + 1 + 1 + 1))
          from rfl, c7]
    rfl
  rw [e1, e2, e3, e4, e5, e6, e7]
  show d + 1 + 1 + 1 + 1 + 1 + 1 + 1 = d + 7
  omega

/-- C3: `calculateEstimatedDelivery` returns null when the ship date or
time-frame is absent; otherwise it writes the computed date into
`estimatedDeliveryDate` and returns it, counting `deliveryTimeframe.max`
(7 when absent) non-Sunday, non-Saturday-unless-allowed days; with a Monday
ship date, max 5 and no Saturday delivery, the estimate is exactly 7
calendar days after the ship date. -/
theorem calculateEstimatedDelivery_correct :
    (∀ s : Shipment, s.shippedAt = none ∨ s.deliveryTimeframe = none →
      s.calculateEstimatedDelivery = (s, none))
    ∧ (∀ (s : Shipment) (d : Int) (tf : Timeframe),
        s.shippedAt = some d → s.deliveryTimeframe = some tf →
        ∃ r, s.calculateEstimatedDelivery
            = ({ s with estimatedDeliveryDate := some r }, some r))
    ∧ (∀ tf : Timeframe, tf.max = none → maxDeliveryDays tf = 7)
    ∧ (∀ (s : Shipment) (d : Int) (mn : Option Nat),
        s.shippedAt = some d
        → s.deliveryTimeframe = some { min := mn, max := some 5 }
        → s.saturdayDelivery = false → dayOfWeek d = 1 →
        (s.calculateEstimatedDelivery).2 = some (d + 7)) := by
  refine ⟨?_, ?_, ?_, ?_⟩
  · intro s h
    cases hs : s.shippedAt with
    | none => simp [Shipment.calculateEstimatedDelivery, hs]
    | some d =>
      rcases h with h | h
      · rw [hs] at h; cases h
      · simp [Shipment.calculateEstimatedDelivery, hs, h]
  · intro s d tf h1 h2
    exact ⟨deliveryLoop s.saturdayDelivery
      (deliveryLoopFuel (maxDeliveryDays tf)) (maxDeliveryDays tf) d,
      by simp [Shipment.calculateEstimatedDelivery, h1, h2]⟩
  · intro tf h
    simp [maxDeliveryDays, h]
  · intro s d mn h1 h2 h3 h4
    have hval : (s.calculateEstimatedDelivery).2
        = some (deliveryLoop false 17 5 d) := by
      simp [Shipment.calculateEstimatedDelivery, h1, h2, h3, maxDeliveryDays,
        deliveryLoopFuel]
    rw [hval, deliveryLoop_monday d h4]

/-- Witness for C3 at the Monday shipment (shipped day 4, max 5, no
Saturday delivery): the estimate is day 11, seven calendar days later. -/
theorem calculateEstimatedDelivery_correct_witness :
    ((sampleMondayShipment.calculateEstimatedDelivery).2 = some 11)
      ∧ (∃ r, sampleMondayShipment.calculateEstimatedDelivery
          = ({ sampleMondayShipment with estimatedDeliveryDate := some r },
             some r)) := by
  constructor
  · have h := calculateEstimatedDelivery_correct.2.2.2 sampleMondayShipment 4
      (some 2) rfl rfl rfl (by decide)
    simpa using h
  · exact calculateEstimatedDelivery_correct.2.1 sampleMondayShipment 4
      { min := some 2, max := some 5 } rfl rfl

/-- A concrete shipment whose stored time-frame maximum is zero. -/
def sampleZeroMaxShipment : Shipment :=
  { trackingNumber := "TN007", shippingStatus := "Shipped",
    shippedAt := some 4,
    deliveryTimeframe := some { min := none, max := some 0 } }

/-- C10: with a stored `deliveryTimeframe.max` equal to 0, the falsy value
falls back to the default and `calculateEstimatedDelivery` counts 7 business
days — the same estimate as with max 7 — so the result is strictly after the
ship date rather than equal to it. -/
theorem calculateEstimatedDelivery_maxZero (s : Shipment) (d : Int)
    (mn : Option Nat) (h1 : s.shippedAt = some d)
    (h2 : s.deliveryTimeframe = some { min := mn, max := some 0 }) :
    (s.calculateEstimatedDelivery).2
        = (({ s with deliveryTimeframe := some { min := mn, max := some 7 } }
            : Shipment).calculateEstimatedDelivery).2
      ∧ ∃ r, (s.calculateEstimatedDelivery).2 = some r ∧ d < r := by
  have hval : (s.calculateEstimatedDelivery).2
      = some (deliveryLoop s.saturdayDelivery (deliveryLoopFuel 7) 7 d) := by
    simp [Shipment.calculateEstimatedDelivery, h1, h2, maxDeliveryDays]
  constructor
  · rw [hval]
    simp [Shipment.calculateEstimatedDelivery, h1, maxDeliveryDays]
  · exact ⟨_, hval,
      deliveryLoop_lt s.saturdayDelivery (deliveryLoopFuel 7) 7 d
        (by simp [deliveryLoopFuel]) (by omega)⟩

/-- Witness for C10 at the concrete zero-max shipment. -/
theorem calculateEstimatedDelivery_maxZero_witness :
    (sampleZeroMaxShipment.calculateEstimatedDelivery).2
        = (({ sampleZeroMaxShipment with
              deliveryTimeframe := some { min := none, max := some 7 } }
            : Shipment).calculateEstimatedDelivery).2
      ∧ ∃ r, (sampleZeroMaxShipment.calculateEstimatedDelivery).2 = some r
          ∧ (4 : Int) < r :=
  calculateEstimatedDelivery_maxZero sampleZeroMaxShipment 4 none rfl rfl

-- Claim C1 ------------------------------------------------------------------

/-- C1 counterexample: `Pending` lies in the 12-value shipping-status
enumeration yet `updateStatus` on it fails validation (its derived token
`pending` is not a valid tracking-event status), while `delivered` lies
outside the enumeration yet `updateStatus` on it does not fail (the status
mapping rewrites the stored status to `Delivered` before the save). -/
theorem updateStatus_enum_counterexample :
    shippingStatusEnum.contains "Pending" = true
      ∧ sampleShipment.updateStatus "Pending" "Mise à jour" {} 90
          = .error "ValidationError"
      ∧ shippingStatusEnum.contains "delivered" = false
      ∧ sampleShipment.updateStatus "delivered" "Mise à jour" {} 90
          ≠ .error "ValidationError" :=
  ⟨by decide, by decide, by decide, by decide⟩

/-- C1 amended: on a valid shipment with a non-empty description,
`updateStatus(newStatus, ...)` persists exactly when the derived token is a
key of the status mapping — so for the six enumeration values In Transit,
Out for Delivery, Delivered, Returned, Lost and Damaged the status is set to
`newStatus` itself and one manual event is appended — and it fails with a
`ValidationError` whenever the derived token is unmapped and either
`newStatus` lies outside the shipping-status enumeration or the token is not
a valid tracking-event status, which is the case for the six remaining
enumeration values Pending, Processing, Ready to Ship, Shipped,
Delivery Failed and Cancelled. -/
theorem updateStatus_amended (s : Shipment) (desc : String)
    (loc : LocationInfo) (now : Int)
    (hv : validShipment s = true) (hd : desc ≠ "") :
    (∀ ns v, statusMapping (statusToken ns) = some v →
      ∃ s', s.updateStatus ns desc loc now = .ok s'
        ∧ s'.shippingStatus = v
        ∧ s'.trackingEvents = s.trackingEvents
            ++ [manualEvent (statusToken ns) desc loc none now])
    ∧ (∀ ns, statusMapping (statusToken ns) = none →
        (shippingStatusEnum.contains ns = false
          ∨ trackingEventStatusEnum.contains (statusToken ns) = false) →
        s.updateStatus ns desc loc now = .error "ValidationError")
    ∧ (∀ ns ∈ (["In Transit", "Out for Delivery", "Delivered", "Returned",
          "Lost", "Damaged"] : List String),
        statusMapping (statusToken ns) = some ns)
    ∧ (∀ ns ∈ (["Pending", "Processing", "Ready to Ship", "Shipped",
          "Delivery Failed", "Cancelled"] : List String),
        statusMapping (statusToken ns) = none
          ∧ trackingEventStatusEnum.contains (statusToken ns) = false) := by
  obtain ⟨hA, hB, hC⟩ := (validShipment_parts s).mp hv
  refine ⟨?_, ?_, by decide, by decide⟩
  · intro ns v hm
    unfold Shipment.updateStatus
    set s1 := s.setShippingStatus ns with hs1
    set s2 := s1.addTrackingEvent (statusToken ns) desc loc none now with hs2
    obtain ⟨f1, f2, f3, f4, f5, f6⟩ := setShippingStatus_frame s ns
    have hst : s2.shippingStatus = v := by
      rw [hs2, addTrackingEvent_shippingStatus, hm]
      rfl
    have hev : s2.trackingEvents = s.trackingEvents
        ++ [manualEvent (statusToken ns) desc loc none now] := by
      rw [hs2, addTrackingEvent_trackingEvents, hs1, f1]
    have hret : s2.returnInfo = s.returnInfo := by
      have g4 := (addTrackingEvent_frame s1 (statusToken ns) desc loc none
        now).2.2.2
      rw [← hs2] at g4
      rw [g4, hs1, f6]
    have hvalid : validShipment s2 = true := by
      rw [validShipment_parts]
      refine ⟨?_, ?_, ?_⟩
      · rw [hst]
        exact statusMapping_mem_enum _ _ hm
      · rw [hev, List.all_append]
        simp only [Bool.and_eq_true]
        refine ⟨hB, ?_⟩
        simp only [List.all_cons, List.all_nil, Bool.and_true]
        unfold validTrackingEvent manualEvent
        simp only [Bool.and_eq_true, bne_iff_ne]
        exact ⟨⟨statusMapping_key_valid _ _ hm, hd⟩, by decide⟩
      · rw [hret]
        exact hC
    refine ⟨{ s2.preSave now with statusModified := false },
      save_ok_of_valid s2 now hvalid, ?_, ?_⟩
    · have := (preSave_frame s2 now).1
      simpa [this] using hst
    · have := (preSave_frame s2 now).2.1
      simpa [this] using hev
  · intro ns hm hbad
    unfold Shipment.updateStatus
    set s1 := s.setShippingStatus ns with hs1
    set s2 := s1.addTrackingEvent (statusToken ns) desc loc none now with hs2
    obtain ⟨f1, f2, f3, f4, f5, f6⟩ := setShippingStatus_frame s ns
    have hst : s2.shippingStatus = ns := by
      rw [hs2, addTrackingEvent_shippingStatus, hm, Option.getD_none, hs1,
        setShippingStatus_shippingStatus]
    have hev : s2.trackingEvents = s.trackingEvents
        ++ [manualEvent (statusToken ns) desc loc none now] := by
      rw [hs2, addTrackingEvent_trackingEvents, hs1, f1]
    apply save_error_of_invalid
    cases hval : validShipment s2 with
    | false => rfl
    | true =>
      exfalso
      obtain ⟨pA, pB, pC⟩ := (validShipment_parts s2).mp hval
      rcases hbad with hb | hb
      · rw [hst] at pA
        rw [pA] at hb
        cases hb
      · rw [hev, List.all_append] at pB
        simp only [Bool.and_eq_true] at pB
        have htok := pB.2
        simp only [List.all_cons, List.all_nil, Bool.and_true] at htok
        unfold validTrackingEvent manualEvent at htok
        simp only [Bool.and_eq_true] at htok
        rw [htok.1.1] at hb
        cases hb

/-- Witness for the amended C1: a concrete successful update to
`In Transit` and a concrete validation failure on `Pending`. -/
theorem updateStatus_amended_witness :
    validShipment sampleShipment = true
      ∧ ("Mise à jour" : String) ≠ ""
      ∧ (∃ s', sampleShipment.updateStatus "In Transit" "Mise à jour" {} 90
            = .ok s'
          ∧ s'.shippingStatus = "In Transit"
          ∧ s'.trackingEvents = sampleShipment.trackingEvents
              ++ [manualEvent (statusToken "In Transit") "Mise à jour" {}
                    none 90])
      ∧ sampleShipment.updateStatus "Pending" "Mise à jour" {} 90
          = .error "ValidationError" := by
  refine ⟨by decide, by decide, ?_, ?_⟩
  · exact (updateStatus_amended sampleShipment "Mise à jour" {} 90
      (by decide) (by decide)).1 "In Transit" "In Transit" (by decide)
  · exact (updateStatus_amended sampleShipment "Mise à jour" {} 90
      (by decide) (by decide)).2.1 "Pending" (by decide) (Or.inr (by decide))
